import Mathlib

/-!
Shallow embedding of `src/app.py` (MultiTextAI): a single-page text
classification app.  The external collaborators (language detector,
translator, the three pre-trained classification pipelines) are modelled
as function parameters gathered in an environment; fallible collaborators
return `Except`.  Classifier probabilities are modelled as exact rationals
and the pandas/Python rounding to two decimal places as round-half-to-even
on rationals.  A call trace records which collaborator steps executed.
-/

namespace MultiTextAI

/-- One row of a classifier's output: `pipe(text)[0]` yields a list of
dicts with a `label` and a `score` (a probability). -/
structure ScoreEntry where
  label : String
  score : ℚ
deriving DecidableEq, Repr

/-- The three options of the task selectbox (app.py line 41). -/
inductive Task where
  | sentimentAnalysis
  | toxicCommentDetection
  | newsCategoryClassification
deriving DecidableEq, Repr

/-- The external collaborators the app calls into: `langdetect.detect`,
`GoogleTranslator(source='auto', target='en').translate`, and the three
loaded pipelines (each already applied as `pipe(text)[0]`).  `detect` and
`translate` may raise, modelled by `Except` with the exception message. -/
structure Env where
  detect : String → Except String String
  translate : String → Except String String
  sentiment_pipe : String → List ScoreEntry
  toxic_pipe : String → List ScoreEntry
  category_pipe : String → List ScoreEntry

/-- `NEWS_LABEL_MAP` (app.py lines 9-14), the AG-News label dictionary. -/
def NEWS_LABEL_MAP : List (String × String) :=
  [("LABEL_0", "World"), ("LABEL_1", "Sports"),
   ("LABEL_2", "Business"), ("LABEL_3", "Sci/Tech")]

/-- `NEWS_LABEL_MAP.get(l, l)` (app.py line 87): dictionary lookup with
the raw label itself as the default. -/
def newsRemap (l : String) : String :=
  (NEWS_LABEL_MAP.lookup l).getD l

/-- `text.strip()`: remove leading and trailing whitespace
(the guard of app.py line 44 tests the stripped text for emptiness). -/
def pyStrip (s : String) : String :=
  String.mk (((s.data.dropWhile Char.isWhitespace).reverse.dropWhile
    Char.isWhitespace).reverse)

/-- Round-half-to-even to the nearest integer, the rounding used by
Python's `round` and pandas' `.round` on exact values. -/
def pyRoundInt (q : ℚ) : ℤ :=
  if q - (⌊q⌋ : ℚ) < 1/2 then ⌊q⌋
  else if 1/2 < q - (⌊q⌋ : ℚ) then ⌊q⌋ + 1
  else if ⌊q⌋ % 2 = 0 then ⌊q⌋ else ⌊q⌋ + 1

/-- `round(x, 2)`: round to two decimal places. -/
def pyRound2 (x : ℚ) : ℚ := (pyRoundInt (x * 100) : ℚ) / 100

/-- The displayed confidence for a raw probability `p`:
`round(p * 100, 2)` (app.py lines 69, 78, 88). -/
def displayScore (p : ℚ) : ℚ := pyRound2 (p * 100)

/-- The raw `(label, score)` rows the selected pipeline emits for the
text being classified (app.py lines 67, 76, 85). -/
def rawResults (env : Env) (task : Task) (t : String) : List ScoreEntry :=
  match task with
  | .sentimentAnalysis => env.sentiment_pipe t
  | .toxicCommentDetection => env.toxic_pipe t
  | .newsCategoryClassification => env.category_pipe t

/-- Per-row display transformation: the news branch remaps the label via
`NEWS_LABEL_MAP` (app.py line 87) and all three branches replace the
score by `round(score * 100, 2)` (app.py lines 69, 78, 88); sentiment
and toxicity labels are left unchanged. -/
def displayEntry (task : Task) (e : ScoreEntry) : ScoreEntry :=
  match task with
  | .newsCategoryClassification => ⟨newsRemap e.label, displayScore e.score⟩
  | .sentimentAnalysis => ⟨e.label, displayScore e.score⟩
  | .toxicCommentDetection => ⟨e.label, displayScore e.score⟩

/-- The dataframe the app builds for the selected task: the pipeline's
rows, in emitted order, each transformed by `displayEntry`
(app.py lines 66-70, 76-79, 85-90). -/
def classify (env : Env) (task : Task) (t : String) : List ScoreEntry :=
  (rawResults env task t).map (displayEntry task)

/-- One collaborator call performed while handling a request. -/
inductive Step where
  | detectCall
  | translateCall
  | classifyCall (task : Task)
deriving DecidableEq, Repr

/-- What the request handler leaves on screen. -/
inductive Outcome where
  | infoPrompt
  | detectFailed (msg : String)
  | translateFailed (msg : String)
  | done (detectedLang : String) (wasTranslated : Bool)
         (textToUse : String) (rows : List ScoreEntry)
deriving DecidableEq, Repr

/-- The request handler (app.py lines 44-95): the guard
`st.button and text.strip()`, then language detection, conditional
translation, and classification, with `st.stop()` after each error
message.  Returns the outcome together with the trace of collaborator
calls that actually ran. -/
def runApp (env : Env) (task : Task) (text : String) (pressed : Bool) :
    Outcome × List Step :=
  if pressed = true ∧ pyStrip text ≠ "" then
    match env.detect text with
    | .error e =>
        (.detectFailed ("❌ Error detecting language: " ++ e), [.detectCall])
    | .ok detected_lang =>
      if detected_lang ≠ "en" then
        match env.translate text with
        | .error e =>
            (.translateFailed ("❌ Translation failed: " ++ e),
             [.detectCall, .translateCall])
        | .ok translated =>
            (.done detected_lang true translated (classify env task translated),
             [.detectCall, .translateCall, .classifyCall task])
      else
        (.done detected_lang false text (classify env task text),
         [.detectCall, .classifyCall task])
  else
    (.infoPrompt, [])

/-- The table `st.dataframe(df, ...)` shows: the dataframe rows in
order, as (display label, confidence) pairs (app.py lines 72, 81, 92). -/
def displayedTable (rows : List ScoreEntry) : List (String × ℚ) :=
  rows.map fun e => (e.label, e.score)

/-- A rendered pie chart: one segment per dataframe row (names from the
label column, values from the confidence column) and a pull of 0.02 per
segment (app.py lines 25-28). -/
structure PieChart where
  segments : List (String × ℚ)
  pull : List ℚ
deriving DecidableEq, Repr

/-- `plot_pie_chart(df, label_col, value_col, title)` (app.py lines
25-28): `px.pie` over the same dataframe, `pull=[0.02]*len(df)`. -/
def plot_pie_chart (rows : List ScoreEntry) : PieChart :=
  ⟨rows.map fun e => (e.label, e.score), List.replicate rows.length (2/100)⟩

/-- The two views rendered for a successful request, both from the same
dataframe (app.py lines 72-73, 81-82, 92-93). -/
def renderResult (rows : List ScoreEntry) : List (String × ℚ) × PieChart :=
  (displayedTable rows, plot_pie_chart rows)

/-- The triple built by `load_pipelines` (app.py lines 18-22). -/
structure Pipelines where
  sentiment_pipe : String → List ScoreEntry
  toxic_pipe : String → List ScoreEntry
  category_pipe : String → List ScoreEntry

/-- Process-wide cache cell behind `@st.cache_resource`, plus a counter
of how many times the underlying loader actually ran. -/
structure CacheState where
  cache : Option Pipelines
  loadCount : ℕ

/-- One call to the cached `load_pipelines` (app.py lines 17-22):
`st.cache_resource` memoization — return the cached resource on a hit,
construct and store it once on a miss. -/
def load_pipelines_cached (construct : Unit → Pipelines) (s : CacheState) :
    Pipelines × CacheState :=
  match s.cache with
  | some p => (p, s)
  | none =>
      let p := construct ()
      (p, ⟨some p, s.loadCount + 1⟩)

/-- Cache state after `n` successive calls from a fresh process. -/
def callN (construct : Unit → Pipelines) : ℕ → CacheState
  | 0 => ⟨none, 0⟩
  | n + 1 => (load_pipelines_cached construct (callN construct n)).2

/-! Concrete sample collaborators, used to exercise the theorems on
closed inputs. -/

/-- Sample sentiment pipeline output. -/
def sentimentPipeW : String → List ScoreEntry :=
  fun _ => [⟨"POSITIVE", 97/100⟩, ⟨"NEGATIVE", 3/100⟩]

/-- Sample toxicity pipeline output. -/
def toxicPipeW : String → List ScoreEntry :=
  fun _ => [⟨"toxic", 1/50⟩, ⟨"obscene", 1/100⟩]

/-- Sample news pipeline output, with one mapped and one unmapped label. -/
def newsPipeW : String → List ScoreEntry :=
  fun _ => [⟨"LABEL_2", 4/5⟩, ⟨"LABEL_9", 1/5⟩]

/-- Sample environment: detector reports English. -/
def envEn : Env :=
  ⟨fun _ => .ok "en", fun _ => .ok "hi", sentimentPipeW, toxicPipeW, newsPipeW⟩

/-- Sample environment: Spanish input, translator succeeds. -/
def envEs : Env :=
  ⟨fun _ => .ok "es", fun _ => .ok "I love this", sentimentPipeW, toxicPipeW,
   newsPipeW⟩

/-- Sample environment: the language detector raises. -/
def envDetectFail : Env :=
  ⟨fun _ => .error "boom", fun _ => .ok "x", sentimentPipeW, toxicPipeW,
   newsPipeW⟩

/-- Sample environment: non-English input and the translator raises. -/
def envTransFail : Env :=
  ⟨fun _ => .ok "es", fun _ => .error "net down", sentimentPipeW, toxicPipeW,
   newsPipeW⟩

/-- Sample loader for the memoization model. -/
def constructW : Unit → Pipelines :=
  fun _ => ⟨sentimentPipeW, toxicPipeW, newsPipeW⟩

/-- The dataframe the sample English-language sentiment request produces. -/
def rowsW : List ScoreEntry :=
  [⟨"POSITIVE", displayScore (97/100)⟩, ⟨"NEGATIVE", displayScore (3/100)⟩]

/-! Helper lemmas. -/

/-- Every task branch replaces the score by `displayScore`. -/
lemma displayEntry_score (task : Task) (e : ScoreEntry) :
    (displayEntry task e).score = displayScore e.score := by
  cases task <;> rfl

/-- Round-half-to-even of a nonnegative rational is nonnegative. -/
lemma pyRoundInt_nonneg {q : ℚ} (h : 0 ≤ q) : 0 ≤ pyRoundInt q := by
  have hf : 0 ≤ ⌊q⌋ := Int.floor_nonneg.mpr h
  unfold pyRoundInt
  split
  · exact hf
  · split
    · omega
    · split <;> omega

/-- Round-half-to-even never exceeds an integer upper bound. -/
lemma pyRoundInt_le {q : ℚ} {B : ℤ} (h : q ≤ (B : ℚ)) : pyRoundInt q ≤ B := by
  have hfl : ⌊q⌋ ≤ B := by
    have h2 := Int.floor_le_floor h
    rwa [Int.floor_intCast] at h2
  unfold pyRoundInt
  split
  · exact hfl
  · rename_i h1
    push_neg at h1
    have hq := Int.floor_le q
    have hlt : ⌊q⌋ < B := by
      have h3 : (⌊q⌋ : ℚ) < (B : ℚ) := by linarith
      exact_mod_cast h3
    split
    · omega
    · split <;> omega

/-- The displayed confidence of a nonnegative probability is nonnegative. -/
lemma displayScore_nonneg {p : ℚ} (h : 0 ≤ p) : 0 ≤ displayScore p := by
  unfold displayScore pyRound2
  have h1 : 0 ≤ pyRoundInt (p * 100 * 100) := pyRoundInt_nonneg (by positivity)
  have h2 : (0 : ℚ) ≤ (pyRoundInt (p * 100 * 100) : ℚ) := by exact_mod_cast h1
  exact div_nonneg h2 (by norm_num)

/-- The displayed confidence of a probability at most 1 is at most 100. -/
lemma displayScore_le_100 {p : ℚ} (h : p ≤ 1) : displayScore p ≤ 100 := by
  unfold displayScore pyRound2
  have h1 : pyRoundInt (p * 100 * 100) ≤ (10000 : ℤ) := by
    apply pyRoundInt_le
    push_cast
    linarith
  have h2 : (pyRoundInt (p * 100 * 100) : ℚ) ≤ 10000 := by exact_mod_cast h1
  rw [div_le_iff₀ (by norm_num : (0 : ℚ) < 100)]
  linarith

/-- Displayed confidences carry exactly two decimal places: multiplied by
100 they are integers. -/
lemma displayScore_den (p : ℚ) : (displayScore p * 100).den = 1 := by
  unfold displayScore pyRound2
  rw [div_mul_cancel₀ _ (by norm_num : (100 : ℚ) ≠ 0)]
  exact Rat.den_intCast _

/-- Labels outside the four AG-News codes pass through the remap. -/
lemma newsRemap_of_ne {l : String} (h0 : l ≠ "LABEL_0") (h1 : l ≠ "LABEL_1")
    (h2 : l ≠ "LABEL_2") (h3 : l ≠ "LABEL_3") : newsRemap l = l := by
  have e0 : (l == "LABEL_0") = false := beq_eq_false_iff_ne.mpr h0
  have e1 : (l == "LABEL_1") = false := beq_eq_false_iff_ne.mpr h1
  have e2 : (l == "LABEL_2") = false := beq_eq_false_iff_ne.mpr h2
  have e3 : (l == "LABEL_3") = false := beq_eq_false_iff_ne.mpr h3
  simp [newsRemap, NEWS_LABEL_MAP, List.lookup, e0, e1, e2, e3]

/-- Inversion: a request that ends in the `done` state classified exactly
the text recorded in that state. -/
lemma runApp_done_inv {env : Env} {task : Task} {text : String}
    {pressed : Bool} {lang : String} {w : Bool} {tu : String}
    {rows : List ScoreEntry} {tr : List Step}
    (h : runApp env task text pressed = (Outcome.done lang w tu rows, tr)) :
    rows = classify env task tu := by
  by_cases hc : pressed = true ∧ pyStrip text ≠ ""
  · cases hdet : env.detect text with
    | error e => simp [runApp, hc, hdet] at h
    | ok lg =>
      by_cases hlg : lg = "en"
      · subst hlg
        simp [runApp, hc, hdet] at h
        obtain ⟨⟨-, -, h3, h4⟩, -⟩ := h
        subst h3
        exact h4.symm
      · cases htr : env.translate text with
        | error e => simp [runApp, hc, hdet, hlg, htr] at h
        | ok t2 =>
          simp [runApp, hc, hdet, hlg, htr] at h
          obtain ⟨⟨-, -, h3, h4⟩, -⟩ := h
          subst h3
          exact h4.symm
  · simp [runApp, hc] at h

/-! Claim theorems. -/

/-- C1: if language detection raises, the request halts with the
detection-failure message after the detect call alone (no translation,
no classification); if translation raises, it halts with the
translation-failure message after detect and translate alone (no
classification). -/
theorem detect_translate_fail_fast (env : Env) (task : Task)
    (text e : String) (hp : pyStrip text ≠ "") :
    (env.detect text = Except.error e →
      runApp env task text true =
        (Outcome.detectFailed ("❌ Error detecting language: " ++ e),
         [Step.detectCall])) ∧
    (∀ lang, env.detect text = Except.ok lang → lang ≠ "en" →
      env.translate text = Except.error e →
      runApp env task text true =
        (Outcome.translateFailed ("❌ Translation failed: " ++ e),
         [Step.detectCall, Step.translateCall])) := by
  constructor
  · intro hdet
    simp [runApp, hp, hdet]
  · intro lang hdet hne htr
    simp [runApp, hp, hdet, hne, htr]

/-- C1 witness: a failing detector and a failing translator, on concrete
environments. -/
theorem detect_translate_fail_fast_witness :
    runApp envDetectFail Task.sentimentAnalysis "hola" true =
      (Outcome.detectFailed ("❌ Error detecting language: " ++ "boom"),
       [Step.detectCall]) ∧
    runApp envTransFail Task.newsCategoryClassification "hola" true =
      (Outcome.translateFailed ("❌ Translation failed: " ++ "net down"),
       [Step.detectCall, Step.translateCall]) :=
  ⟨(detect_translate_fail_fast envDetectFail Task.sentimentAnalysis "hola"
      "boom" (by decide)).1 rfl,
   (detect_translate_fail_fast envTransFail Task.newsCategoryClassification
      "hola" "net down" (by decide)).2 "es" rfl (by decide) rfl⟩

/-- C2: when the detected language is the pivot `"en"`, no translation
happens, `was_translated` is false, and the classifier receives the
original text unchanged. -/
theorem pivot_language_identity (env : Env) (task : Task) (text : String)
    (hp : pyStrip text ≠ "") (hdet : env.detect text = Except.ok "en") :
    runApp env task text true =
      (Outcome.done "en" false text (classify env task text),
       [Step.detectCall, Step.classifyCall task]) := by
  simp [runApp, hp, hdet]

/-- C2 witness: an English request on a concrete environment. -/
theorem pivot_language_identity_witness :
    runApp envEn Task.sentimentAnalysis "hi" true =
      (Outcome.done "en" false "hi"
        (classify envEn Task.sentimentAnalysis "hi"),
       [Step.detectCall, Step.classifyCall Task.sentimentAnalysis]) :=
  pivot_language_identity envEn Task.sentimentAnalysis "hi" (by decide) rfl

/-- C3: when the detected language differs from the pivot and translation
succeeds, `was_translated` is true and the classifier receives exactly the
translator's output. -/
theorem translated_text_used (env : Env) (task : Task)
    (text lang tlt : String) (hp : pyStrip text ≠ "")
    (hdet : env.detect text = Except.ok lang) (hne : lang ≠ "en")
    (htr : env.translate text = Except.ok tlt) :
    runApp env task text true =
      (Outcome.done lang true tlt (classify env task tlt),
       [Step.detectCall, Step.translateCall, Step.classifyCall task]) := by
  simp [runApp, hp, hdet, hne, htr]

/-- C3 witness: a Spanish request on a concrete environment whose
translator succeeds. -/
theorem translated_text_used_witness :
    runApp envEs Task.sentimentAnalysis "Me encanta esto" true =
      (Outcome.done "es" true "I love this"
        (classify envEs Task.sentimentAnalysis "I love this"),
       [Step.detectCall, Step.translateCall,
        Step.classifyCall Task.sentimentAnalysis]) :=
  translated_text_used envEs Task.sentimentAnalysis "Me encanta esto" "es"
    "I love this" (by decide) rfl (by decide) rfl

/-- C4: assuming raw probabilities in [0,1], each displayed row keeps the
raw row's position, its confidence equals the raw probability times 100
rounded to two decimals, lies in [0,100], and has exactly two decimal
places. -/
theorem confidence_display_bounds (env : Env) (task : Task) (t : String)
    (i : ℕ) (e : ScoreEntry)
    (hraw : ∀ r ∈ rawResults env task t, 0 ≤ r.score ∧ r.score ≤ 1)
    (he : (rawResults env task t)[i]? = some e) :
    (classify env task t)[i]? = some (displayEntry task e) ∧
    (displayEntry task e).score = displayScore e.score ∧
    0 ≤ (displayEntry task e).score ∧ (displayEntry task e).score ≤ 100 ∧
    ((displayEntry task e).score * 100).den = 1 := by
  have hmem : e ∈ rawResults env task t := by
    have := List.getElem?_mem he
    exact this
  obtain ⟨h0, h1⟩ := hraw e hmem
  refine ⟨?_, displayEntry_score task e, ?_, ?_, ?_⟩
  · simp [classify, List.getElem?_map, he]
  · rw [displayEntry_score]
    exact displayScore_nonneg h0
  · rw [displayEntry_score]
    exact displayScore_le_100 h1
  · rw [displayEntry_score]
    exact displayScore_den e.score

/-- C4 witness: the first sentiment row of a concrete request. -/
theorem confidence_display_bounds_witness :
    (classify envEn Task.sentimentAnalysis "hi")[0]? =
      some (displayEntry Task.sentimentAnalysis ⟨"POSITIVE", 97/100⟩) ∧
    (displayEntry Task.sentimentAnalysis ⟨"POSITIVE", 97/100⟩).score =
      displayScore ((97 : ℚ)/100) ∧
    0 ≤ (displayEntry Task.sentimentAnalysis ⟨"POSITIVE", 97/100⟩).score ∧
    (displayEntry Task.sentimentAnalysis ⟨"POSITIVE", 97/100⟩).score ≤ 100 ∧
    ((displayEntry Task.sentimentAnalysis ⟨"POSITIVE", 97/100⟩).score *
      100).den = 1 :=
  confidence_display_bounds envEn Task.sentimentAnalysis "hi" 0
    ⟨"POSITIVE", 97/100⟩
    (by
      intro r hr
      simp only [rawResults, envEn, sentimentPipeW, List.mem_cons,
        List.not_mem_nil, or_false] at hr
      rcases hr with rfl | rfl <;> exact ⟨by norm_num, by norm_num⟩)
    rfl

/-- C5: the four AG-News codes map to World/Sports/Business/Sci-Tech, any
other label passes through unchanged, sentiment and toxicity labels are
never remapped, and news display labels are exactly the remap of the raw
labels. -/
theorem news_label_remap (u : String) (e : ScoreEntry)
    (hu : u ∉ ["LABEL_0", "LABEL_1", "LABEL_2", "LABEL_3"]) :
    newsRemap "LABEL_0" = "World" ∧ newsRemap "LABEL_1" = "Sports" ∧
    newsRemap "LABEL_2" = "Business" ∧ newsRemap "LABEL_3" = "Sci/Tech" ∧
    newsRemap u = u ∧
    (displayEntry Task.sentimentAnalysis e).label = e.label ∧
    (displayEntry Task.toxicCommentDetection e).label = e.label ∧
    (displayEntry Task.newsCategoryClassification e).label =
      newsRemap e.label := by
  simp only [List.mem_cons, List.not_mem_nil, or_false, not_or] at hu
  obtain ⟨h0, h1, h2, h3⟩ := hu
  exact ⟨by decide, by decide, by decide, by decide,
    newsRemap_of_ne h0 h1 h2 h3, rfl, rfl, rfl⟩

/-- C5 witness: the unmapped code LABEL_9 and a concrete row. -/
theorem news_label_remap_witness :
    newsRemap "LABEL_0" = "World" ∧ newsRemap "LABEL_1" = "Sports" ∧
    newsRemap "LABEL_2" = "Business" ∧ newsRemap "LABEL_3" = "Sci/Tech" ∧
    newsRemap "LABEL_9" = "LABEL_9" ∧
    (displayEntry Task.sentimentAnalysis ⟨"LABEL_2", 4/5⟩).label =
      (⟨"LABEL_2", (4 : ℚ)/5⟩ : ScoreEntry).label ∧
    (displayEntry Task.toxicCommentDetection ⟨"LABEL_2", 4/5⟩).label =
      (⟨"LABEL_2", (4 : ℚ)/5⟩ : ScoreEntry).label ∧
    (displayEntry Task.newsCategoryClassification ⟨"LABEL_2", 4/5⟩).label =
      newsRemap (⟨"LABEL_2", (4 : ℚ)/5⟩ : ScoreEntry).label :=
  news_label_remap "LABEL_9" ⟨"LABEL_2", 4/5⟩ (by decide)

/-- C6: the news label remap is idempotent. -/
theorem newsRemap_idempotent (l : String) :
    newsRemap (newsRemap l) = newsRemap l := by
  by_cases h0 : l = "LABEL_0"
  · subst h0
    decide
  by_cases h1 : l = "LABEL_1"
  · subst h1
    decide
  by_cases h2 : l = "LABEL_2"
  · subst h2
    decide
  by_cases h3 : l = "LABEL_3"
  · subst h3
    decide
  · have h := newsRemap_of_ne h0 h1 h2 h3
    rw [h]
    exact h

/-- C7: the displayed rows are position-for-position the classifier's
emitted rows, each transformed in place: same length, no sorting, no
filtering, no aggregation. -/
theorem classifier_order_preserved (env : Env) (task : Task) (t : String)
    (i : ℕ) (e : ScoreEntry)
    (he : (rawResults env task t)[i]? = some e) :
    (classify env task t).length = (rawResults env task t).length ∧
    (classify env task t)[i]? = some (displayEntry task e) := by
  constructor
  · simp [classify]
  · simp [classify, List.getElem?_map, he]

/-- C7 witness: the second news row of a concrete request stays second. -/
theorem classifier_order_preserved_witness :
    (classify envEn Task.newsCategoryClassification "hi").length =
      (rawResults envEn Task.newsCategoryClassification "hi").length ∧
    (classify envEn Task.newsCategoryClassification "hi")[1]? =
      some (displayEntry Task.newsCategoryClassification ⟨"LABEL_9", 1/5⟩) :=
  classifier_order_preserved envEn Task.newsCategoryClassification "hi" 1
    ⟨"LABEL_9", 1/5⟩ rfl

/-- C8: across any number of calls from a fresh process, the loader runs
exactly once: after the first call the cache holds the constructed
pipelines, every later call returns that same memoized value, and the
state never changes again. -/
theorem pipelines_loaded_once (construct : Unit → Pipelines) (n : ℕ)
    (hn : 1 ≤ n) :
    (callN construct n).loadCount = 1 ∧
    (callN construct n).cache = some (construct ()) ∧
    (load_pipelines_cached construct (callN construct n)).1 =
      construct () ∧
    (load_pipelines_cached construct (callN construct n)).2 =
      callN construct n := by
  induction n with
  | zero => omega
  | succ m ih =>
    rcases Nat.eq_zero_or_pos m with hm | hm
    · subst hm
      exact ⟨rfl, rfl, rfl, rfl⟩
    · obtain ⟨ha, hb, hc, hd⟩ := ih hm
      have hs : callN construct (m + 1) = callN construct m := hd
      rw [hs]
      exact ⟨ha, hb, hc, hd⟩

/-- C8 witness: three calls on a concrete loader. -/
theorem pipelines_loaded_once_witness :
    (callN constructW 3).loadCount = 1 ∧
    (callN constructW 3).cache = some (constructW ()) ∧
    (load_pipelines_cached constructW (callN constructW 3)).1 =
      constructW () ∧
    (load_pipelines_cached constructW (callN constructW 3)).2 =
      callN constructW 3 :=
  pipelines_loaded_once constructW 3 (by norm_num)

/-- C9: an input that strips to the empty string triggers no collaborator
call at all; the informational prompt is shown. -/
theorem blank_input_no_steps (env : Env) (task : Task) (text : String)
    (h : pyStrip text = "") :
    runApp env task text true = (Outcome.infoPrompt, []) := by
  simp [runApp, h]

/-- C9 witness: a whitespace-only input on a concrete environment. -/
theorem blank_input_no_steps_witness :
    runApp envEn Task.sentimentAnalysis "   " true =
      (Outcome.infoPrompt, []) :=
  blank_input_no_steps envEn Task.sentimentAnalysis "   " (by decide)

/-- C10: on a successful request, the rows handed to the table and the
segments handed to the pie chart are the identical (label, confidence)
sequence, both produced from the classification output. -/
theorem table_and_pie_identical (env : Env) (task : Task) (text : String)
    (pressed : Bool) (lang : String) (w : Bool) (tu : String)
    (rows : List ScoreEntry) (tr : List Step)
    (h : runApp env task text pressed = (Outcome.done lang w tu rows, tr)) :
    rows = classify env task tu ∧
    (renderResult rows).1 = (renderResult rows).2.segments := by
  refine ⟨runApp_done_inv h, ?_⟩
  simp [renderResult, displayedTable, plot_pie_chart]

/-- C10 witness: the concrete English sentiment request. -/
theorem table_and_pie_identical_witness :
    rowsW = classify envEn Task.sentimentAnalysis "hi" ∧
    (renderResult rowsW).1 = (renderResult rowsW).2.segments :=
  table_and_pie_identical envEn Task.sentimentAnalysis "hi" true "en" false
    "hi" rowsW [Step.detectCall, Step.classifyCall Task.sentimentAnalysis]
    rfl

end MultiTextAI
